import Mathlib

/-!
Verification of the `@linear/sdk-plugin` package
(`src/packages/sdk-plugin/src/index.ts`): a graphql-codegen plugin whose
node-inspector helpers classify GraphQL variable-definition AST nodes, whose
`validate` entry point checks the output path and configuration, and whose
`plugin` entry point assembles the generated SDK text inside a single
try/catch that rethrows.

The definitions below are a shallow embedding of that TypeScript source.
AST node shapes (`VariableDefinitionNode`, type nodes, operation nodes) come
from the `graphql` package as used by the source; node kinds become inductive
constructors, optional fields become `Option`, and JavaScript truthiness
tests are made explicit.
-/

namespace SdkPlugin

/--
Embedding of the graphql type-node shapes handled by `getTypeName`, whose
TypeScript argument type is
`string | NameNode | NonNullTypeNode | NamedTypeNode | ListTypeNode`.
The function dispatches dynamically on `typeof type === "string"` and on
`type.kind`, so the embedding is one inductive covering: a plain string, a
name node (`kind: Name`, carrying a string `value`), a named-type node
(`kind: NamedType`, carrying a name node), the non-null wrapper
(`kind: NonNullType`), the list wrapper (`kind: ListType`), and a final
constructor standing for any node whose `kind` is none of the above
(the "unrecognized shape" branch of the dispatch).
-/
inductive TypeNode where
  | str (s : String)
  | nameNode (value : String)
  | namedType (name : TypeNode)
  | nonNull (ty : TypeNode)
  | listType (ty : TypeNode)
  | unrecognized
deriving DecidableEq, Repr

/--
Modelled from the spec: the `ID_NAME` constant of the constants module
(`./constants`, outside `src/`). The spec calls it the fixed reserved
identifier-convention name, the source doc comment on `isIdVariable` reads
"Is the variable named id", and the spec's worked example treats the
variable named "id" as the exempt one.
-/
def ID_NAME : String := "id"

/--
Embedding of the graphql `VariableDefinitionNode` as read by the inspector
functions: `v.variable.name.value` (the variable's name string), `v.type`
(a type node), and the optional `v.defaultValue` node, of which only
presence (JavaScript truthiness) is ever consulted.
-/
structure VariableDefinitionNode where
  name : String
  type : TypeNode
  defaultValue : Option Unit
deriving DecidableEq, Repr

/--
Embedding of the fields of the graphql `OperationDefinitionNode` read by the
inspector functions: the optional `variableDefinitions` list (`undefined`
becomes `none`).
-/
structure OperationDefinitionNode where
  variableDefinitions : Option (List VariableDefinitionNode)
deriving DecidableEq, Repr

/--
Embedding of the `ApiDefinition` shape (declared in `./types`, outside
`src/`) as used by the inspector functions in `src/`: an operation node `o.node`
and the chain path `o.path`, a list of prior key segments (empty = root).
-/
structure ApiDefinition where
  node : OperationDefinitionNode
  path : List String
deriving DecidableEq, Repr

/--
Embedding of `isRequiredVariable`:
`v.type.kind === Kind.NON_NULL_TYPE` — true exactly when the outermost
wrapper of the variable's type is the non-null wrapper.
-/
def isRequiredVariable (v : VariableDefinitionNode) : Bool :=
  match v.type with
  | .nonNull _ => true
  | _ => false

/--
Embedding of `isIdVariable`:
`v.variable.name.value === c.ID_NAME && isRequiredVariable(v)`.
-/
def isIdVariable (v : VariableDefinitionNode) : Bool :=
  v.name == ID_NAME && isRequiredVariable v

/--
Embedding of `hasOptionalVariable`:
`!o.node.variableDefinitions || o.node.variableDefinitions.length === 0 ||
 o.node.variableDefinitions.every(v => (o.path.length ? isIdVariable(v) : false)
   || !isRequiredVariable(v) || v.defaultValue)`.
The ternary on `o.path.length` uses JavaScript number truthiness (non-zero),
and the trailing `v.defaultValue` is object truthiness (presence).
-/
def hasOptionalVariable (o : ApiDefinition) : Bool :=
  match o.node.variableDefinitions with
  | none => true
  | some defs =>
    defs.length == 0 ||
    defs.all fun v =>
      (if o.path.length ≠ 0 then isIdVariable v else false) ||
      !isRequiredVariable v ||
      v.defaultValue.isSome

/--
Embedding of `hasVariable`:
`Boolean(o.node.variableDefinitions?.some(v => v.variable.name.value === variableName))`.
The optional chaining makes an absent list yield `undefined`, coerced to
`false` by `Boolean`.
-/
def hasVariable (o : ApiDefinition) (variableName : String) : Bool :=
  match o.node.variableDefinitions with
  | none => false
  | some defs => defs.any fun v => v.name == variableName

/--
Embedding of `hasOtherVariable`:
`Boolean(o.node.variableDefinitions?.some(v => v.variable.name.value !== variableName))`.
-/
def hasOtherVariable (o : ApiDefinition) (variableName : String) : Bool :=
  match o.node.variableDefinitions with
  | none => false
  | some defs => defs.any fun v => v.name != variableName

/--
Number of dispatch steps `getTypeName` takes on a node; used only as the
termination measure for the embedding (the name-node case recurses on a
plain string, which is not a structural subterm).
-/
def TypeNode.resolveDepth : TypeNode → Nat
  | .str _ => 0
  | .nameNode _ => 1
  | .namedType n => n.resolveDepth + 1
  | .nonNull ty => ty.resolveDepth + 1
  | .listType ty => ty.resolveDepth + 1
  | .unrecognized => 0

/--
Embedding of `getTypeName`: a string is returned as-is; the non-null and
list wrappers recurse into `type.type`; a named-type node recurses into
`type.name`; a name node recurses into `type.value` (a string); any other
node shape yields the sentinel `"UNKNOWN_OPERATION_TYPE"`. The Lean
function is total by construction, matching the claim that the source never
throws on any of these inputs.
-/
def getTypeName : TypeNode → String
  | .str s => s
  | .nonNull ty => getTypeName ty
  | .namedType n => getTypeName n
  | .nameNode v => getTypeName (.str v)
  | .listType ty => getTypeName ty
  | .unrecognized => "UNKNOWN_OPERATION_TYPE"
termination_by t => t.resolveDepth
decreasing_by all_goals simp [TypeNode.resolveDepth]

/--
Specification-side restatement of type-name resolution, used only to compare
with `getTypeName`: the innermost named type's string name when one exists
(`none` for an unrecognized shape wherever it ends up after unwrapping).
-/
def specInnermostName : TypeNode → Option String
  | .str s => some s
  | .nameNode v => some v
  | .namedType n => specInnermostName n
  | .nonNull ty => specInnermostName ty
  | .listType ty => specInnermostName ty
  | .unrecognized => none

/--
C4: `isRequiredVariable` returns true iff the outermost wrapper of the
variable's type is the non-null wrapper; the check does not recurse, so a
variable whose type is a list of non-null elements is not required.
-/
theorem isRequiredVariable_outermost_only :
    (∀ v : VariableDefinitionNode,
      isRequiredVariable v = true ↔ ∃ t, v.type = TypeNode.nonNull t) ∧
    (∀ (name : String) (t : TypeNode) (dv : Option Unit),
      isRequiredVariable ⟨name, TypeNode.listType (TypeNode.nonNull t), dv⟩ = false) := by
  constructor
  · intro v
    cases hv : v.type <;> simp [isRequiredVariable, hv]
  · intro name t dv
    simp [isRequiredVariable]

/--
C5: `getTypeName` is a total function (it never fails on any input shape)
that recursively unwraps the non-null and list wrappers and returns the
innermost named type's string name, yielding the sentinel
`"UNKNOWN_OPERATION_TYPE"` whenever the unwrapping reaches an unrecognized
node shape instead of a name.
-/
theorem getTypeName_total_resolution :
    (∀ t : TypeNode,
      getTypeName t = (specInnermostName t).getD "UNKNOWN_OPERATION_TYPE") ∧
    (∀ t : TypeNode, getTypeName (TypeNode.nonNull t) = getTypeName t) ∧
    (∀ t : TypeNode, getTypeName (TypeNode.listType t) = getTypeName t) ∧
    (∀ s : String, getTypeName (TypeNode.namedType (TypeNode.nameNode s)) = s) ∧
    getTypeName TypeNode.unrecognized = "UNKNOWN_OPERATION_TYPE" := by
  have key : ∀ t : TypeNode,
      getTypeName t = (specInnermostName t).getD "UNKNOWN_OPERATION_TYPE" := by
    intro t
    induction t with
    | str s => simp [getTypeName, specInnermostName]
    | nameNode v => simp [getTypeName, specInnermostName]
    | namedType n ih => simp [getTypeName, specInnermostName, ih]
    | nonNull ty ih => simp [getTypeName, specInnermostName, ih]
    | listType ty ih => simp [getTypeName, specInnermostName, ih]
    | unrecognized => simp [getTypeName, specInnermostName]
  refine ⟨key, ?_, ?_, ?_, ?_⟩
  · intro t; simp [getTypeName]
  · intro t; simp [getTypeName]
  · intro s; simp [getTypeName]
  · simp [getTypeName]

/--
C6: type-name resolution is invariant under re-wrapping — resolving
non-null (list (non-null base)) gives the same name as resolving base.
-/
theorem getTypeName_rewrap_invariant :
    ∀ base : TypeNode,
      getTypeName (TypeNode.nonNull (TypeNode.listType (TypeNode.nonNull base))) =
        getTypeName base := by
  intro base
  simp [getTypeName]

/--
C7: for every operation whose variable-definition list is absent or empty,
`hasOptionalVariable` returns true.
-/
theorem hasOptionalVariable_empty_true :
    ∀ o : ApiDefinition,
      (o.node.variableDefinitions = none ∨ o.node.variableDefinitions = some []) →
      hasOptionalVariable o = true := by
  intro o h
  rcases h with h | h <;> simp [hasOptionalVariable, h]

/-- Witness for C7 at the concrete operation with an empty variable list. -/
theorem hasOptionalVariable_empty_true_witness :
    hasOptionalVariable ⟨⟨some []⟩, []⟩ = true :=
  hasOptionalVariable_empty_true ⟨⟨some []⟩, []⟩ (Or.inr rfl)

/--
C10: for every operation whose variable-definition list is absent or empty
and for every variable name, both `hasVariable` and `hasOtherVariable`
return false — in particular `hasOtherVariable` reports no extra parameters
for a variable-free operation rather than being vacuously true.
-/
theorem hasVariable_hasOtherVariable_empty_false :
    ∀ (o : ApiDefinition) (variableName : String),
      (o.node.variableDefinitions = none ∨ o.node.variableDefinitions = some []) →
      hasVariable o variableName = false ∧ hasOtherVariable o variableName = false := by
  intro o variableName h
  rcases h with h | h <;> simp [hasVariable, hasOtherVariable, h]

/--
C1 counterexample: the identifier-convention exemption does NOT apply
regardless of the operation's path. The operation below has an empty path
and a single variable that is id-named and required (so exempt under the
claim's reading, making the claimed characterization yield true), yet
`hasOptionalVariable` returns false: the source guards the exemption with
`o.path.length ? isIdVariable(v) : false`.
-/
theorem hasOptionalVariable_id_exemption_counterexample :
    isIdVariable ⟨"id", TypeNode.nonNull (TypeNode.namedType (TypeNode.nameNode "String")), none⟩ = true ∧
    isRequiredVariable ⟨"id", TypeNode.nonNull (TypeNode.namedType (TypeNode.nameNode "String")), none⟩ = true ∧
    hasOptionalVariable
      ⟨⟨some [⟨"id", TypeNode.nonNull (TypeNode.namedType (TypeNode.nameNode "String")), none⟩]⟩, []⟩ = false := by
  decide

/--
C1 (amended): `hasOptionalVariable` returns true exactly when the
operation's variable-definition list is absent or empty, or every variable
in it satisfies at least one of: (i) the operation's path is non-empty and
the variable is named with the identifier convention and is required,
(ii) it is not required, (iii) it has a default value. (The amendment: the
identifier-convention exemption applies only when the path is non-empty,
not regardless of the path.)
-/
theorem hasOptionalVariable_characterization :
    ∀ o : ApiDefinition,
      hasOptionalVariable o = true ↔
        (o.node.variableDefinitions = none ∨
         o.node.variableDefinitions = some [] ∨
         ∃ defs, o.node.variableDefinitions = some defs ∧
           ∀ v ∈ defs,
             ((o.path ≠ [] ∧ isIdVariable v = true) ∨
              isRequiredVariable v = false ∨
              v.defaultValue.isSome = true)) := by
  intro o
  obtain ⟨⟨vd⟩, path⟩ := o
  cases vd with
  | none => simp [hasOptionalVariable]
  | some defs =>
    by_cases hp : path = []
    · subst hp
      simp [hasOptionalVariable, List.all_eq_true, List.length_eq_zero]
    · have hlen : path.length ≠ 0 := by
        simpa [List.length_eq_zero] using hp
      simp [hasOptionalVariable, List.all_eq_true, List.length_eq_zero, hlen, hp, or_assoc]

/--
C2: a single-variable operation whose variable is required (outer non-null
wrapper), not identifier-named and without a default makes
`hasOptionalVariable` return false when the path is empty; and a
single-variable operation whose variable is the identifier-convention-named
required variable makes it return true when the path is non-empty.
-/
theorem hasOptionalVariable_single_required :
    (∀ (name : String) (t : TypeNode),
      name ≠ ID_NAME →
      hasOptionalVariable ⟨⟨some [⟨name, TypeNode.nonNull t, none⟩]⟩, []⟩ = false) ∧
    (∀ (t : TypeNode) (dv : Option Unit) (path : List String),
      path ≠ [] →
      hasOptionalVariable ⟨⟨some [⟨ID_NAME, TypeNode.nonNull t, dv⟩]⟩, path⟩ = true) := by
  constructor
  · intro name t hname
    simp [hasOptionalVariable, isIdVariable, isRequiredVariable]
  · intro t dv path hpath
    have hlen : path.length ≠ 0 := by
      simpa [List.length_eq_zero] using hpath
    simp [hasOptionalVariable, isIdVariable, isRequiredVariable, hlen]

/-- Witness for C2 at concrete inputs: a required non-id "input" variable at
the root, and the required "id" variable under the non-empty path ["team"]. -/
theorem hasOptionalVariable_single_required_witness :
    (("input" : String) ≠ ID_NAME ∧
      hasOptionalVariable
        ⟨⟨some [⟨"input", TypeNode.nonNull (TypeNode.namedType (TypeNode.nameNode "CommentCreateInput")), none⟩]⟩, []⟩ = false) ∧
    ((["team"] : List String) ≠ [] ∧
      hasOptionalVariable
        ⟨⟨some [⟨ID_NAME, TypeNode.nonNull (TypeNode.namedType (TypeNode.nameNode "String")), none⟩]⟩, ["team"]⟩ = true) :=
  ⟨⟨by decide,
    hasOptionalVariable_single_required.1 "input"
      (TypeNode.namedType (TypeNode.nameNode "CommentCreateInput")) (by decide)⟩,
   ⟨by decide,
    hasOptionalVariable_single_required.2
      (TypeNode.namedType (TypeNode.nameNode "String")) none ["team"] (by decide)⟩⟩

/--
C3: the operation with variable definitions
[(name "id", outer non-null), (name "input", outer non-null)], neither with
a default value, makes `hasOptionalVariable` return false for every path —
in particular both for the empty path and for any non-empty path, since
"input" remains a required, non-identifier variable without a default.
-/
theorem hasOptionalVariable_id_input_pair_false :
    ∀ (t₁ t₂ : TypeNode) (path : List String),
      hasOptionalVariable
        ⟨⟨some [⟨"id", TypeNode.nonNull t₁, none⟩, ⟨"input", TypeNode.nonNull t₂, none⟩]⟩, path⟩ = false := by
  intro t₁ t₂ path
  by_cases hp : path.length = 0 <;>
    simp [hasOptionalVariable, isIdVariable, isRequiredVariable, ID_NAME, hp]

/-- Witness for C10 at the concrete operation with no variable list. -/
theorem hasVariable_hasOtherVariable_empty_false_witness :
    hasVariable ⟨⟨none⟩, []⟩ "id" = false ∧ hasOtherVariable ⟨⟨none⟩, []⟩ "id" = false :=
  hasVariable_hasOtherVariable_empty_false ⟨⟨none⟩, []⟩ "id" (Or.inl rfl)

/--
Helper for the `extname` embedding: the suffix of a character list starting
at its last dot, or `none` when the list has no dot.
-/
def extSuffix : List Char → Option (List Char)
  | [] => none
  | c :: cs =>
    match extSuffix cs with
    | some s => some s
    | none => if c = '.' then some (c :: cs) else none

/--
Embedding of Node's posix `path.extname` as imported by the source
(`import \x7b extname \x7d from "path"`): trailing slashes are ignored, the
basename is the part after the last separator, and the extension runs from
the basename's last dot to the end — except that there is no extension when
the basename has no dot, when its last dot is its first character (dotfiles
such as ".ts", and "." itself), or when the basename is exactly "..".
-/
def extname (p : String) : String :=
  let cs := p.toList
  let stripped := (cs.reverse.dropWhile fun c => c == '/').reverse
  let base := (stripped.reverse.takeWhile fun c => c != '/').reverse
  match extSuffix base with
  | none => ""
  | some s =>
    if s.length == base.length then ""
    else if base == ['.', '.'] then ""
    else String.mk s

/--
Embedding of the `documentMode` configuration flag
(`DocumentMode` from `@graphql-codegen/visitor-plugin-common`): only the
string mode is distinguished by the source.
-/
inductive DocumentMode where
  | string
  | documentNode
deriving DecidableEq, Repr

/--
Embedding of the fields of `RawSdkPluginConfig` read by `validate` and
`plugin`: the document-source-file path (`documentFile`, an optional string
since the runtime value may be absent despite the static type) and the
document-emission mode (`documentMode`, optional for the same reason).
-/
structure RawSdkPluginConfig where
  documentFile : Option String
  documentMode : Option DocumentMode
deriving DecidableEq, Repr

/--
Embedding of the second `validate` guard
`!config.documentFile || typeof config.documentFile !== "string"`: with the
runtime value of `documentFile` modelled as an optional string, the guard
fires when the field is absent or is the empty string (the only falsy
string); any present value passes the `typeof` test.
-/
def documentFileInvalid (config : RawSdkPluginConfig) : Bool :=
  match config.documentFile with
  | none => true
  | some s => s == ""

/--
Embedding of `validate` (index.ts lines 93-112): throw when
`extname(outputFile) !== ".ts"` with a message naming the required
extension and the offending path, else throw when the `documentFile`
setting is missing or falsy, else succeed. Exceptions are modelled as
`Except.error` carrying the thrown message.
-/
def validate (outputFile : String) (config : RawSdkPluginConfig) : Except String Unit :=
  if extname outputFile != ".ts" then
    Except.error
      ("Plugin \"@linear/sdk-plugin\" config requires output file extension to be \".ts\" but is \""
        ++ outputFile ++ "\"")
  else if documentFileInvalid config then
    Except.error
      "Plugin \"@linear/sdk-plugin\" config requires documentFile to be a string path to a document file generated by \"typed-document-node\""
  else
    Except.ok ()

/--
C8: `validate` succeeds iff the output file path has the ".ts" extension
and the configuration's `documentFile` is a present, non-empty string (it
throws exactly otherwise); in particular with documentFile "./documents.ts"
it succeeds on output path "operations.ts" and throws on "operations.js"
with an error message naming the required ".ts" extension.
-/
theorem validate_spec :
    (∀ (outputFile : String) (config : RawSdkPluginConfig),
      validate outputFile config = Except.ok () ↔
        (extname outputFile = ".ts" ∧ documentFileInvalid config = false)) ∧
    validate "operations.ts" ⟨some "./documents.ts", some DocumentMode.string⟩ = Except.ok () ∧
    validate "operations.js" ⟨some "./documents.ts", some DocumentMode.string⟩ =
      Except.error
        "Plugin \"@linear/sdk-plugin\" config requires output file extension to be \".ts\" but is \"operations.js\"" := by
  refine ⟨?_, rfl, rfl⟩
  intro outputFile config
  by_cases h1 : extname outputFile = ".ts"
  · by_cases h2 : documentFileInvalid config = true
    · simp [validate, h1, h2]
    · simp only [Bool.not_eq_true] at h2
      simp [validate, h1, h2]
  · simp [validate, h1]

/--
Output structure returned by `plugin` on success: the `prepend` lines and
the main `content` body.
-/
structure PluginOutput where
  prepend : List String
  content : String
deriving DecidableEq, Repr

/--
Modelled from the spec: `filterJoin` from `@linear/common` (outside `src/`)
— join the defined entries with the given separator, dropping the undefined
ones.
-/
def filterJoin (xs : List (Option String)) (sep : String) : String :=
  String.intercalate sep (xs.filterMap id)

/--
Modelled from the spec: the `NAMESPACE_DOCUMENT` constant of the constants
module (outside `src/`) — the namespace identifier under which the document
module is imported in the generated text. Its concrete value is not fixed
by the spec and no claim below depends on it.
-/
def NAMESPACE_DOCUMENT : String := "D"

/--
Modelled from the spec: the document-processing, classification,
visitor-construction and text-emission helpers called by `plugin`
(`processSdkDocuments`, `getRootDocuments`, `concatAST`,
`getFragmentsFromAst`, `createVisitor`, `getChainKeys`,
`getChildDocuments`, `printRequesterType`, and a visitor's `sdkContent`
field), whose bodies live in modules outside `src/`. Each call may raise an
exception, modelled by `Except E`; the carried types are opaque parameters.
-/
structure SdkPluginDeps (E Schema Doc SdkDoc Ast Frag Visitor : Type) where
  processSdkDocuments : List Doc → Except E (List SdkDoc)
  getRootDocuments : List SdkDoc → Except E (List SdkDoc)
  concatAST : List SdkDoc → Except E Ast
  getFragmentsFromAst : Ast → RawSdkPluginConfig → Except E (List Frag)
  createVisitor :
    Schema → List Doc → List SdkDoc → List Frag → RawSdkPluginConfig → Option String →
      Except E Visitor
  getChainKeys : List SdkDoc → Except E (List String)
  getChildDocuments : List SdkDoc → String → Except E (List SdkDoc)
  printRequesterType : RawSdkPluginConfig → Except E (List String)
  sdkContent : Visitor → String

/--
The `prepend` list assembled by `plugin` (index.ts lines 61-68): the
eslint-disable line, the DocumentNode import when the document mode is not
string mode, and the ResultOf import, with the undefined entry filtered out
by `filter(nonNullable)`.
-/
def pluginPrepend (config : RawSdkPluginConfig) : List String :=
  ([some "/* eslint-disable @typescript-eslint/no-unused-vars */",
    if config.documentMode != some DocumentMode.string
      then some "import \x7b DocumentNode \x7d from \x27graphql\x27"
      else none,
    some "import \x7b ResultOf \x7d from \x27@graphql-typed-document-node/core\x27"]).filterMap id

/--
The `content` body assembled by `plugin` (index.ts lines 69-82): the
document module import/re-export lines, the requester-type lines, one text
block per chained visitor and the root visitor's block, joined with
newlines by `filterJoin`. A missing `documentFile` interpolates as the
string "undefined", as JavaScript template literals do.
-/
def pluginContent (config : RawSdkPluginConfig) (requesterLines : List String)
    (chainContents : List String) (rootContent : String) : String :=
  filterJoin
    ([some ("import * as " ++ NAMESPACE_DOCUMENT ++ " from \x27"
        ++ config.documentFile.getD "undefined" ++ "\x27"),
      some ("export * from \x27" ++ config.documentFile.getD "undefined" ++ "\x27\n")] ++
      requesterLines.map some ++ chainContents.map some ++ [some rootContent])
    "\n"

/--
The body of `plugin`'s try block (index.ts lines 21-83): process the
documents, classify them, concatenate the root AST, extract the fragments,
build the root visitor, build one visitor per chain key, print the
requester type, and assemble the output structure; an exception raised by
any step propagates out.
-/
def pluginTryBody {E Schema Doc SdkDoc Ast Frag Visitor : Type}
    (d : SdkPluginDeps E Schema Doc SdkDoc Ast Frag Visitor)
    (schema : Schema) (documents : List Doc) (config : RawSdkPluginConfig) :
    Except E PluginOutput := do
  let sdkDocuments ← d.processSdkDocuments documents
  let rootDocuments ← d.getRootDocuments sdkDocuments
  let rootAst ← d.concatAST rootDocuments
  let rootFragments ← d.getFragmentsFromAst rootAst config
  let rootVisitor ← d.createVisitor schema documents rootDocuments rootFragments config none
  let chainKeys ← d.getChainKeys sdkDocuments
  let chainVisitors ← chainKeys.mapM fun chainKey => do
    let chainDocuments ← d.getChildDocuments sdkDocuments chainKey
    d.createVisitor schema documents chainDocuments rootFragments config (some chainKey)
  let requesterLines ← d.printRequesterType config
  pure ⟨pluginPrepend config,
        pluginContent config requesterLines (chainVisitors.map d.sdkContent)
          (d.sdkContent rootVisitor)⟩

/--
Embedding of `plugin` (index.ts lines 16-88): run the try body; on success
return the output structure, and on an exception log it (`logger.fatal(e)`,
observability only) and rethrow the very same exception (`throw e`).
-/
def plugin {E Schema Doc SdkDoc Ast Frag Visitor : Type}
    (d : SdkPluginDeps E Schema Doc SdkDoc Ast Frag Visitor)
    (schema : Schema) (documents : List Doc) (config : RawSdkPluginConfig) :
    Except E PluginOutput :=
  match pluginTryBody d schema documents config with
  | Except.ok result => Except.ok result
  | Except.error e => Except.error e

/--
C9: if any exception is raised during `plugin`'s document processing,
classification, visitor construction or output assembly, the entry point
rethrows exactly that same exception value and produces no output
structure (in particular an exception from the very first step,
`processSdkDocuments`, surfaces unchanged); if no exception is raised it
returns the assembled output structure.
-/
theorem plugin_rethrows_unchanged
    {E Schema Doc SdkDoc Ast Frag Visitor : Type}
    (d : SdkPluginDeps E Schema Doc SdkDoc Ast Frag Visitor)
    (schema : Schema) (documents : List Doc) (config : RawSdkPluginConfig) :
    (∀ e : E, pluginTryBody d schema documents config = Except.error e →
      plugin d schema documents config = Except.error e) ∧
    (∀ e : E, d.processSdkDocuments documents = Except.error e →
      plugin d schema documents config = Except.error e) ∧
    (∀ out : PluginOutput, pluginTryBody d schema documents config = Except.ok out →
      plugin d schema documents config = Except.ok out) := by
  refine ⟨?_, ?_, ?_⟩
  · intro e h
    simp [plugin, h]
  · intro e h
    unfold plugin pluginTryBody
    rw [h]
    rfl
  · intro out h
    simp [plugin, h]

/--
A concrete dependency bundle whose first step (`processSdkDocuments`)
raises the exception "boom"; used only to witness the rethrow behaviour of
`plugin` at a concrete input.
-/
def pluginDepsFailing : SdkPluginDeps String Unit Unit Unit Unit Unit Unit :=
  ⟨fun _ => Except.error "boom",
   fun _ => Except.ok [],
   fun _ => Except.ok (),
   fun _ _ => Except.ok [],
   fun _ _ _ _ _ _ => Except.ok (),
   fun _ => Except.ok [],
   fun _ _ => Except.ok [],
   fun _ => Except.ok [],
   fun _ => ""⟩

/-- Witness for C9: with the failing dependency bundle, `plugin` surfaces
the exception "boom" unchanged. -/
theorem plugin_rethrows_unchanged_witness :
    plugin pluginDepsFailing () [] ⟨some "./documents.ts", some DocumentMode.string⟩ =
      Except.error "boom" :=
  (plugin_rethrows_unchanged pluginDepsFailing () []
      ⟨some "./documents.ts", some DocumentMode.string⟩).2.1 "boom" rfl

end SdkPlugin
